import Mathlib

/-!
Shallow embedding of the `filestorage` library (ianepperson/filestorage)
and proofs about the claims of its specification.

Each definition is translated from the named Python source location.
Python strings are modelled as `List Char` where character-level reasoning
is needed and as `String` elsewhere; Python exceptions are modelled with
`Except`; dictionaries are modelled as insertion-ordered association lists.
-/

namespace Filestorage

/-! ## Filename sanitisation (src/filestorage/handler_base.py, sanitize_filename) -/

/-- Python `str.isalnum`, modelled by Lean's `Char.isAlphanum`
(letters and digits). -/
def pyIsAlnum (c : Char) : Bool := c.isAlphanum

/-- The inner `clean_char` of `StorageHandlerBase.sanitize_filename`:
`if c.isalnum() or c in ('.', '_'): return c` else `return '_'`. -/
def clean_char (c : Char) : Char :=
  if pyIsAlnum c = true ∨ c = '.' ∨ c = '_' then c else '_'

/-- Python `filename.lstrip('.')`: drop every leading `'.'`. -/
def lstripDot : List Char → List Char
  | [] => []
  | c :: cs => if c = '.' then lstripDot cs else c :: cs

/-- `StorageHandlerBase.sanitize_filename`: strip the leading dots, then
replace every character that is not alphanumeric, `'.'` or `'_'` by `'_'`. -/
def sanitize_filename (s : List Char) : List Char :=
  (lstripDot s).map clean_char

/-- `sanitize_filename` on `String`, used by the save paths. -/
def sanitizeStr (s : String) : String := ⟨sanitize_filename s.data⟩

/-! ## Errors (src/filestorage/exceptions.py and Python built-ins) -/

/-- Exceptions that the modelled code can raise.  `configError` is
`FilestorageConfigError`; `typeError` and `keyError` are the Python
built-ins raised by bad calls and missing dict keys. -/
inductive PyErr where
  | configError (msg : String)
  | typeError (msg : String)
  | keyError
  | fileExtensionNotAllowed
  deriving DecidableEq, Repr

/-! ## FileItem (src/filestorage/file_item.py) -/

/-- `FileItem`: filename, path segments, optional content (bytes, modelled as
`List Nat`), optional declared media type.  The reader machinery is I/O and is
not modelled. -/
structure FileItem where
  filename : String
  path : List String
  data : Option (List Nat)
  media_type : Option String
  deriving Repr

/-- Python `'/'.join(...)`. -/
def joinSlash : List String → String
  | [] => ""
  | [x] => x
  | x :: xs => x ++ "/" ++ joinSlash xs

/-- `FileItem.url_path`: the path segments and the filename joined with `/`. -/
def FileItem.url_path (i : FileItem) : String :=
  joinSlash (i.path ++ [i.filename])

/-! ## Filters (src/filestorage/filter_base.py)

The snapshot's `FilterBase.call`/`async_call` declare two positional
parameters `(fileio, filename)` besides `self`, while every caller and every
concrete filter in the repository passes and takes a single `FileItem`.
Because Python binds positional arguments at call time, the embedding keeps
the argument lists explicit: a method invoked with the wrong number of
arguments raises `TypeError` before its body runs.  `PyVal` is the type of
the dynamically typed values that flow through a filter pipeline. -/

/-- Dynamically typed Python values appearing in the filter pipeline. -/
inductive PyVal where
  | item (i : FileItem)
  | pystr (s : String)
  | pyNone

/-- A filter instance: its `async_ok` class flag, its `_apply` override
(which, in every concrete filter of the repository, takes one `FileItem`
and returns one, possibly raising), and the outcome of its `validate()`. -/
structure FilterBase where
  async_ok : Bool
  apply : FileItem → Except PyErr FileItem
  validateResult : Except PyErr Unit

/-- Invoking a concrete filter's `_apply` with a list of positional
arguments: the overrides take exactly one `FileItem` parameter, so any other
argument list raises `TypeError` at binding time. -/
def pyApplyFilter (f : FilterBase) : List PyVal → Except PyErr PyVal
  | [PyVal.item i] => (f.apply i).map PyVal.item
  | _ => .error (.typeError "apply() positional argument mismatch")

/-- `FilterBase.call` (filter_base.py line 19): declared as
`call(self, fileio, filename)`, so exactly two positional arguments bind;
the body runs `self._apply(fileio, filename)` (two arguments). -/
def FilterBase.call (f : FilterBase) : List PyVal → Except PyErr PyVal
  | [fileio, filename] => pyApplyFilter f [fileio, filename]
  | _ => .error (.typeError "call() missing 1 required positional argument: filename")

/-- `FilterBase.async_call` (filter_base.py line 29): two positional
parameters bind first; the body then raises `FilestorageConfigError` when the
filter is not `async_ok`, and otherwise runs `self._apply(fileio, filename)`. -/
def FilterBase.async_call (f : FilterBase) : List PyVal → Except PyErr PyVal
  | [fileio, filename] =>
      if f.async_ok = false then
        .error (.configError "the filter cannot be used asynchronously")
      else pyApplyFilter f [fileio, filename]
  | _ => .error (.typeError "async_call() missing 1 required positional argument: filename")

/-! ## Handler base (src/filestorage/handler_base.py) -/

/-- A handler instance: the constructor-time state of
`StorageHandlerBase`/`AsyncStorageHandlerBase` plus the subclass hooks.
`isAsync` tells whether the instance is an `AsyncStorageHandlerBase`;
`validateResult` is the outcome of the subclass `_validate`; `save'` is the
backend `_save`/`_async_save`, returning the spec's "optional new filename"
(the async save path checks its result against `None`). -/
structure StorageHandler where
  isAsync : Bool
  path : List String
  filters : List FilterBase
  validateResult : Except PyErr Unit
  save' : FileItem → Except PyErr (Option String)

/-- `StorageHandlerBase.get_item` as used by the save paths (no subpath):
builds a `FileItem` from the handler's path and the given filename/data. -/
def get_item (h : StorageHandler) (filename : String) (data : Option (List Nat)) : FileItem :=
  ⟨filename, h.path, data, none⟩

/-- Validation of the filter list in `StorageHandlerBase.validate`:
each filter's `validate()` runs in order and a raise propagates.
(The class-not-instance check cannot fire here because the embedding only
represents filter instances; the coroutine gathering is flattened to
sequencing.) -/
def validateFilters : List FilterBase → Except PyErr Unit
  | [] => .ok ()
  | f :: rest => f.validateResult.bind fun _ => validateFilters rest

/-- `StorageHandlerBase.validate`: validate the filters, then the subclass
`_validate`. -/
def StorageHandlerBase.validate (filters : List FilterBase)
    (subValidate : Except PyErr Unit) : Except PyErr Unit :=
  (validateFilters filters).bind fun _ => subValidate

/-- The message of the capability-mismatch error raised by
`AsyncStorageHandlerBase.validate` (the real message interpolates the filter
and handler names). -/
def asyncMismatchMsg : String :=
  "Filter cannot be used in asynchronous storage handler"

/-- The loop at the top of `AsyncStorageHandlerBase.validate`: raise a
`FilestorageConfigError` at the first owned filter whose `async_ok` is
false. -/
def asyncCapabilityCheck : List FilterBase → Except PyErr Unit
  | [] => .ok ()
  | f :: rest =>
      if f.async_ok = false then .error (.configError asyncMismatchMsg)
      else asyncCapabilityCheck rest

/-- `AsyncStorageHandlerBase.validate`: the capability check runs first and
raises immediately; only then does the base-class validation run. -/
def AsyncStorageHandlerBase.validate (filters : List FilterBase)
    (subValidate : Except PyErr Unit) : Except PyErr Unit :=
  (asyncCapabilityCheck filters).bind fun _ =>
    StorageHandlerBase.validate filters subValidate

/-- Dispatch of `handler.validate()` on a handler instance, as performed by
`StorageContainer.finalize_config`. -/
def StorageHandler.validate (h : StorageHandler) : Except PyErr Unit :=
  if h.isAsync then AsyncStorageHandlerBase.validate h.filters h.validateResult
  else StorageHandlerBase.validate h.filters h.validateResult

/-- The filter loop of `StorageHandlerBase.save_file`:
`for filter_ in self.filters: item = filter_.call(item)`.
The loop variable holds whatever the previous call returned. -/
def saveFileLoop : List FilterBase → PyVal → Except PyErr PyVal
  | [], v => .ok v
  | f :: rest, v => (FilterBase.call f [v]).bind fun v' => saveFileLoop rest v'

/-- The filter loop of `AsyncStorageHandlerBase.async_save_file`:
`for filter_ in self.filters: item = await filter_.async_call(item)`. -/
def asyncSaveFileLoop : List FilterBase → PyVal → Except PyErr PyVal
  | [], v => .ok v
  | f :: rest, v => (FilterBase.async_call f [v]).bind fun v' => asyncSaveFileLoop rest v'

/-- `StorageHandlerBase.save_file` (handler_base.py line 163): sanitize the
filename, build the item, run the filters, and return `self._save(item)` —
whatever the backend returns, with no fallback. -/
def save_file (h : StorageHandler) (filename : String) (data : Option (List Nat)) :
    Except PyErr (Option String) :=
  let filename := sanitizeStr filename
  let item := get_item h filename data
  match saveFileLoop h.filters (PyVal.item item) with
  | .error e => .error e
  | .ok (PyVal.item it) => h.save' it
  | .ok _ => .error (.typeError "_save() received a value that is not a FileItem")

/-- `AsyncStorageHandlerBase.async_save_file` (handler_base.py line 260):
like `save_file`, but when the backend returns `None` the local (sanitized)
`filename` variable is returned instead. -/
def async_save_file (h : StorageHandler) (filename : String) (data : Option (List Nat)) :
    Except PyErr String :=
  let filename := sanitizeStr filename
  let item := get_item h filename data
  match asyncSaveFileLoop h.filters (PyVal.item item) with
  | .error e => .error e
  | .ok (PyVal.item it) =>
      match h.save' it with
      | .error e => .error e
      | .ok (some newFilename) => .ok newFilename
      | .ok none => .ok filename
  | .ok _ => .error (.typeError "_async_save() received a value that is not a FileItem")

/-! ## Concrete handlers (src/filestorage/handlers/dummy.py and file.py) -/

/-- `DummyHandler._delete` (dummy.py line 118): `del self.files[item.url_path]`.
`del` on a Python dict raises `KeyError` when the key is absent.  The files
dict maps url paths to stored contents. -/
def DummyHandler.delete_item (files : List (String × List Nat)) (item : FileItem) :
    Except PyErr (List (String × List Nat)) :=
  if (files.lookup item.url_path).isSome then
    .ok (files.eraseP fun kv => kv.1 == item.url_path)
  else .error .keyError

/-- `StorageHandlerBase.delete` on a `DummyHandler`: build the item from the
handler path and the filename, then `_delete`. -/
def DummyHandler.delete (files : List (String × List Nat)) (hpath : List String)
    (filename : String) : Except PyErr (List (String × List Nat)) :=
  DummyHandler.delete_item files ⟨filename, hpath, none, none⟩

/-- `LocalFileHandler._delete` (file.py line 66): `os.remove` wrapped in
`try/except FileNotFoundError: pass`.  The file system is modelled as the
list of existing paths; deleting an absent path is a no-op. -/
def LocalFileHandler.delete (fs : List String) (p : String) :
    Except PyErr (List String) :=
  .ok (fs.erase p)

/-! ## StorageContainer (src/filestorage/storage_container.py) -/

/-- A `StorageContainer` node: optional name, optional handler, the
`_do_not_use` and `_finalized` flags, and the lazily created children in
insertion order.  The parent back-reference exists in the source only for
composing the dotted diagnostic name and is not representable in a tree
value; it is dropped. -/
inductive StorageContainer where
  | mk (name : Option String) (handler : Option StorageHandler)
       (do_not_use : Bool) (finalized : Bool)
       (children : List (String × StorageContainer))

def StorageContainer.name : StorageContainer → Option String
  | .mk n _ _ _ _ => n

def StorageContainer.handler? : StorageContainer → Option StorageHandler
  | .mk _ h _ _ _ => h

def StorageContainer.do_not_use : StorageContainer → Bool
  | .mk _ _ d _ _ => d

def StorageContainer.finalized : StorageContainer → Bool
  | .mk _ _ _ f _ => f

def StorageContainer.children : StorageContainer → List (String × StorageContainer)
  | .mk _ _ _ _ ch => ch

/-- Lookup in an insertion-ordered association list (Python dict read). -/
def assocFind {α : Type} : List (String × α) → String → Option α
  | [], _ => none
  | (k, v) :: rest, key => if k = key then some v else assocFind rest key

/-- Update in an insertion-ordered association list (Python dict write):
replace in place if present, append otherwise. -/
def updateAssoc {α : Type} : List (String × α) → String → α → List (String × α)
  | [], k, v => [(k, v)]
  | (k', v') :: rest, k, v =>
      if k' = k then (k, v) :: rest else (k', v') :: updateAssoc rest k v

/-- `StorageContainer.__getitem__` (storage_container.py line 152):
`self._children.setdefault(key, StorageContainer(name=key, parent=self))` —
return the memoized child, or create, store and return a fresh one.
Returns the child together with the updated node. -/
def StorageContainer.getItem (c : StorageContainer) (k : String) :
    StorageContainer × StorageContainer :=
  match assocFind c.children k with
  | some ch => (ch, c)
  | none =>
      let ch := StorageContainer.mk (some k) none false false []
      (ch, StorageContainer.mk c.name c.handler? c.do_not_use c.finalized
            (c.children ++ [(k, ch)]))

/-- The `handler` setter (storage_container.py line 74): refuse when
finalized, when `do_not_use` is set, or when a handler is already set; then
the `isinstance` check rejects any value that is not a `StorageHandlerBase` —
including Python `None`. -/
def StorageContainer.setHandler (c : StorageContainer) (h : Option StorageHandler) :
    Except PyErr StorageContainer :=
  if c.finalized then
    .error (.configError "Setting handler: store already finalized!")
  else if c.do_not_use then
    .error (.configError "Setting handler: do_not_use already set!")
  else if c.handler?.isSome then
    .error (.configError "Setting handler: handler already set!")
  else
    match h with
    | some hh =>
        .ok (StorageContainer.mk c.name (some hh) c.do_not_use c.finalized c.children)
    | none =>
        .error (.configError "Setting handler: None is not a StorageHandler")

/-- `StorageContainer.set_do_not_use` (storage_container.py line 98). -/
def StorageContainer.set_do_not_use (c : StorageContainer) :
    Except PyErr StorageContainer :=
  if c.finalized then
    .error (.configError "set_do_not_use: store already finalized!")
  else if c.handler?.isSome then
    .error (.configError "set_do_not_use: a handler is already set!")
  else
    .ok (StorageContainer.mk c.name c.handler? true c.finalized c.children)

mutual

/-- `StorageContainer.finalize_config` (storage_container.py line 112):
return immediately when already finalized; set `_finalized` first; return
when `do_not_use`; raise when no handler; validate the handler; then
finalize the children in order.  An exception propagates immediately and
every mutation made before it persists.  (The coroutine gathering is
flattened to sequential validation.)  Returns the updated node and the
raised error, if any. -/
def finalize_config : StorageContainer → StorageContainer × Option PyErr
  | .mk nm h dnu true ch => (.mk nm h dnu true ch, none)
  | .mk nm h dnu false ch =>
      if dnu then (.mk nm h dnu true ch, none)
      else
        match h with
        | none =>
            (.mk nm none dnu true ch,
             some (.configError "No handler provided for store"))
        | some hh =>
            match StorageHandler.validate hh with
            | .error e => (.mk nm (some hh) dnu true ch, some e)
            | .ok _ =>
                match finalizeChildren ch with
                | (ch', e) => (.mk nm (some hh) dnu true ch', e)

/-- The child loop of `finalize_config`: finalize each child in order; the
first raise aborts the loop, leaving the later children untouched. -/
def finalizeChildren :
    List (String × StorageContainer) → List (String × StorageContainer) × Option PyErr
  | [] => ([], none)
  | (k, c) :: rest =>
      match finalize_config c with
      | (c', some e) => ((k, c') :: rest, some e)
      | (c', none) =>
          match finalizeChildren rest with
          | (rest', e') => ((k, c') :: rest', e')

end

/-! ## Settings resolution (src/filestorage/config_utils.py) -/

/-- Python `str.lower`. -/
def pyLower (s : String) : String := ⟨s.data.map Char.toLower⟩

/-- The handler-resolution slice of `config_utils.setup_store` (line 86):
read the `handler` leaf, treat the case-insensitive literal `"none"` as
Python `None` and any other name as a resolved handler instance, then assign
`store.handler`. -/
def setup_store_handler (store : StorageContainer) (handler_class_name : String)
    (resolved : StorageHandler) : Except PyErr StorageContainer :=
  if pyLower handler_class_name = "none" then store.setHandler none
  else store.setHandler (some resolved)

/-- The nested settings structure built by `get_keys_from`: a Python dict
whose string keys hold sub-dicts and whose reserved `None` key holds the
leaf value. -/
inductive SettingsDict where
  | mk (leaf : Option String) (children : List (String × SettingsDict))

def SettingsDict.leaf : SettingsDict → Option String
  | .mk l _ => l

def SettingsDict.children : SettingsDict → List (String × SettingsDict)
  | .mk _ ch => ch

def SettingsDict.empty : SettingsDict := .mk none []

/-- Python `str.strip()` (no argument): drop leading and trailing
whitespace. -/
def isSpaceChar (c : Char) : Bool :=
  c = ' ' || c = '\t' || c = '\n' || c = '\r' || c = '\x0b' || c = '\x0c'

def dropLeadingSpaces : List Char → List Char
  | [] => []
  | c :: cs => if isSpaceChar c then dropLeadingSpaces cs else c :: cs

def pyStrip (s : String) : String :=
  ⟨((dropLeadingSpaces ((dropLeadingSpaces s.data).reverse)).reverse)⟩

/-- `key.replace('[', '.[')`: insert a `'.'` before every `'['`. -/
def insertDotBeforeBrackets : List Char → List Char
  | [] => []
  | c :: cs =>
      if c = '[' then '.' :: '[' :: insertDotBeforeBrackets cs
      else c :: insertDotBeforeBrackets cs

/-- Python `str.split('.')`: split at every `'.'`, keeping empty parts. -/
def splitOnDot : List Char → List (List Char)
  | [] => [[]]
  | c :: cs =>
      if c = '.' then [] :: splitOnDot cs
      else
        match splitOnDot cs with
        | [] => [[c]]
        | p :: rest => (c :: p) :: rest

/-- The key-splitting of `set_nested_value`: normalise the brackets, then
split on `'.'`. -/
def splitKey (key : String) : List String :=
  (splitOnDot (insertDotBeforeBrackets key.data)).map fun l => ⟨l⟩

/-- The walk of `set_nested_value`: `sub = sub.setdefault(part, {})` for each
part, then `sub[None] = value.strip()`. -/
def setPath : List String → String → SettingsDict → SettingsDict
  | [], v, d => .mk (some (pyStrip v)) d.children
  | p :: ps, v, d =>
      let sub := (assocFind d.children p).getD SettingsDict.empty
      .mk d.leaf (updateAssoc d.children p (setPath ps v sub))

/-- `config_utils.set_nested_value` (line 267). -/
def set_nested_value (key value : String) (result : SettingsDict) : SettingsDict :=
  setPath (splitKey key) value result

/-- Python `str.startswith`. -/
def pyStartsWith (s pre : String) : Bool := pre.data.isPrefixOf s.data

/-- `config_utils.get_keys_from` (line 257): fold the flat settings (in
insertion order), keeping the keys under the chosen prefix, then return the
subtree stored under the prefix itself. -/
def get_keys_from (pfx : String) (settings : List (String × String)) : SettingsDict :=
  let result := settings.foldl
    (fun acc kv =>
      if pyStartsWith kv.1 (pfx ++ ".") || pyStartsWith kv.1 (pfx ++ "[") then
        set_nested_value kv.1 kv.2 acc
      else acc)
    SettingsDict.empty
  (assocFind result.children pfx).getD SettingsDict.empty

/-- Walk a `SettingsDict` along a list of keys. -/
def lookupPath : SettingsDict → List String → Option SettingsDict
  | d, [] => some d
  | d, k :: ks =>
      match assocFind d.children k with
      | some sub => lookupPath sub ks
      | none => none

theorem clean_char_charset (c : Char) :
    pyIsAlnum (clean_char c) = true ∨ clean_char c = '.' ∨ clean_char c = '_' := by
  unfold clean_char
  split
  · assumption
  · right; right; rfl

theorem clean_char_idem (c : Char) : clean_char (clean_char c) = clean_char c := by
  by_cases h : pyIsAlnum c = true ∨ c = '.' ∨ c = '_'
  · simp [clean_char, h]
  · simp only [clean_char, h, if_false, if_neg]
    decide

theorem clean_char_ne_dot {c : Char} (h : c ≠ '.') : clean_char c ≠ '.' := by
  unfold clean_char
  split
  · exact h
  · decide

theorem lstripDot_head_ne_dot :
    ∀ (s : List Char) (c : Char) (cs : List Char), lstripDot s = c :: cs → c ≠ '.' := by
  intro s
  induction s with
  | nil => intro c cs h; simp [lstripDot] at h
  | cons a as ih =>
    intro c cs h
    by_cases ha : a = '.'
    · rw [lstripDot, if_pos ha] at h
      exact ih c cs h
    · rw [lstripDot, if_neg ha] at h
      injection h with h1 h2
      exact h1 ▸ ha

theorem lstripDot_no_op (l : List Char)
    (h : ∀ c cs, l = c :: cs → c ≠ '.') : lstripDot l = l := by
  cases l with
  | nil => rfl
  | cons a as =>
    have ha := h a as rfl
    simp [lstripDot, ha]

theorem sanitize_head_ne_dot :
    ∀ (s : List Char) (c : Char) (cs : List Char),
      sanitize_filename s = c :: cs → c ≠ '.' := by
  intro s c cs h
  unfold sanitize_filename at h
  cases hl : lstripDot s with
  | nil => rw [hl] at h; simp at h
  | cons a as =>
    rw [hl] at h
    simp only [List.map] at h
    have ha : a ≠ '.' := lstripDot_head_ne_dot s a as hl
    have : clean_char a = c := (List.cons.injEq .. ▸ h).1
    exact this ▸ clean_char_ne_dot ha

theorem assocFind_append_self {α : Type} (l : List (String × α)) (k : String) (v : α)
    (h : assocFind l k = none) : assocFind (l ++ [(k, v)]) k = some v := by
  induction l with
  | nil => simp [assocFind]
  | cons p rest ih =>
      obtain ⟨k', v'⟩ := p
      by_cases hk : k' = k
      · rw [assocFind, if_pos hk] at h; cases h
      · rw [assocFind, if_neg hk] at h
        simp only [List.cons_append, assocFind, if_neg hk]
        exact ih h

theorem asyncCapabilityCheck_error {filters : List FilterBase}
    (h : ∃ f ∈ filters, f.async_ok = false) :
    asyncCapabilityCheck filters = .error (.configError asyncMismatchMsg) := by
  induction filters with
  | nil => simp at h
  | cons f rest ih =>
      obtain ⟨g, hg, hgf⟩ := h
      rw [asyncCapabilityCheck]
      cases hf : f.async_ok with
      | false => rw [if_pos rfl]
      | true =>
          rw [if_neg (by simp [hf])]
          rcases List.mem_cons.mp hg with rfl | hmem
          · exact absurd hgf (by simp [hf])
          · exact ih ⟨g, hmem, hgf⟩

/-- C1 counterexample: the input `"a../b"` contains the traversal sequence
`"../"`, yet its sanitized form `"a.._b"` still contains `".."`, refuting the
claim that the result of `sanitize_filename` never contains `".."` for such
inputs. -/
theorem sanitize_filename_traversal_counterexample :
    List.IsInfix ['.', '.', '/'] ['a', '.', '.', '/', 'b']
    ∧ sanitize_filename ['a', '.', '.', '/', 'b'] = ['a', '.', '.', '_', 'b']
    ∧ List.IsInfix ['.', '.'] (sanitize_filename ['a', '.', '.', '/', 'b']) :=
  ⟨⟨['a'], ['b'], rfl⟩, rfl, ⟨['a'], ['_', 'b'], rfl⟩⟩

/-- C1 (amended): for every input, the result of `sanitize_filename` contains
only alphanumeric characters, `'.'` and `'_'`, does not start with `'.'`, and
never contains `'/'` or `'\'`; the original claim's further guarantee that
`".."` never survives is false (see the counterexample). -/
theorem sanitize_filename_amended (s : List Char) :
    (∀ c ∈ sanitize_filename s, pyIsAlnum c = true ∨ c = '.' ∨ c = '_')
    ∧ (∀ c cs, sanitize_filename s = c :: cs → c ≠ '.')
    ∧ '/' ∉ sanitize_filename s
    ∧ '\\' ∉ sanitize_filename s := by
  have hcs : ∀ c ∈ sanitize_filename s, pyIsAlnum c = true ∨ c = '.' ∨ c = '_' := by
    intro c hc
    unfold sanitize_filename at hc
    obtain ⟨a, -, rfl⟩ := List.mem_map.mp hc
    exact clean_char_charset a
  refine ⟨hcs, sanitize_head_ne_dot s, ?_, ?_⟩
  · intro hm
    rcases hcs '/' hm with h | h | h <;> exact absurd h (by decide)
  · intro hm
    rcases hcs '\\' hm with h | h | h <;> exact absurd h (by decide)

/-- C1 witness: the amended theorem applied to the concrete input `".a/b"`,
whose sanitized form is `"a_b"`. -/
theorem sanitize_filename_amended_witness :
    ('a' : Char) ≠ '.' ∧ '/' ∉ sanitize_filename ['.', 'a', '/', 'b'] :=
  ⟨(sanitize_filename_amended ['.', 'a', '/', 'b']).2.1 'a' ['_', 'b'] rfl,
   (sanitize_filename_amended ['.', 'a', '/', 'b']).2.2.1⟩

/-- C10: `sanitize_filename` is idempotent — the first pass leaves no leading
dot and no character outside the kept set, so a second pass changes
nothing. -/
theorem sanitize_filename_idempotent (s : List Char) :
    sanitize_filename (sanitize_filename s) = sanitize_filename s := by
  have h1 : lstripDot (sanitize_filename s) = sanitize_filename s :=
    lstripDot_no_op _ (fun c cs h => sanitize_head_ne_dot s c cs h)
  show (lstripDot (sanitize_filename s)).map clean_char = sanitize_filename s
  rw [h1]
  unfold sanitize_filename
  rw [List.map_map]
  exact List.map_congr_left fun a _ => clean_char_idem a

/-- C10 witness: idempotence evaluated at the concrete input `".a/b"`. -/
theorem sanitize_filename_idempotent_witness :
    sanitize_filename (sanitize_filename ['.', 'a', '/', 'b'])
      = sanitize_filename ['.', 'a', '/', 'b'] :=
  sanitize_filename_idempotent ['.', 'a', '/', 'b']

/-- C2 counterexample: a container that was disabled and then genuinely
finalized through `finalize_config`; looking up the never-seen key `"x"`
does not raise — `__getitem__` has no finalized check and simply creates and
stores a fresh child. -/
theorem getItem_after_finalize_counterexample :
    StorageContainer.set_do_not_use (.mk none none false false [])
        = .ok (.mk none none true false [])
    ∧ finalize_config (.mk none none true false [])
        = (.mk none none true true [], none)
    ∧ StorageContainer.getItem (.mk none none true true []) "x"
        = (.mk (some "x") none false false [],
           .mk none none true true [("x", .mk (some "x") none false false [])]) := by
  refine ⟨rfl, ?_, rfl⟩
  simp [finalize_config]

/-- C2 (amended): child lookup lazily creates and memoizes the child — a
second lookup of the same key returns the identical child and leaves the
node unchanged — but the finalized flag is never consulted: for every node,
finalized or not, looking up an unseen key creates and stores a fresh child
instead of raising. -/
theorem getItem_memoizes_and_ignores_finalized (c : StorageContainer) (k : String) :
    StorageContainer.getItem (StorageContainer.getItem c k).2 k
      = StorageContainer.getItem c k
    ∧ (assocFind c.children k = none →
        (StorageContainer.getItem c k).1 = StorageContainer.mk (some k) none false false []
        ∧ (StorageContainer.getItem c k).2.children
            = c.children ++ [(k, StorageContainer.mk (some k) none false false [])]) := by
  obtain ⟨nm, hd, dnu, fin, ch⟩ := c
  constructor
  · cases hf : assocFind ch k with
    | some ch0 =>
        simp [StorageContainer.getItem, StorageContainer.children, hf]
    | none =>
        have hf2 : assocFind (ch ++ [(k, StorageContainer.mk (some k) none false false [])]) k
            = some (StorageContainer.mk (some k) none false false []) :=
          assocFind_append_self ch k _ hf
        simp [StorageContainer.getItem, StorageContainer.children, StorageContainer.name,
          StorageContainer.handler?, StorageContainer.do_not_use, StorageContainer.finalized,
          hf, hf2]
  · intro hf
    simp only [StorageContainer.children] at hf
    refine ⟨?_, ?_⟩ <;>
      simp [StorageContainer.getItem, StorageContainer.children, hf]

/-- C2 witness: the amended theorem applied to a finalized container with no
children and the key `"x"`. -/
theorem getItem_memoizes_witness :
    StorageContainer.getItem
        (StorageContainer.getItem (.mk none none true true []) "x").2 "x"
      = StorageContainer.getItem (.mk none none true true []) "x"
    ∧ (StorageContainer.getItem (.mk none none true true []) "x").1
        = StorageContainer.mk (some "x") none false false [] :=
  ⟨(getItem_memoizes_and_ignores_finalized (.mk none none true true []) "x").1,
   ((getItem_memoizes_and_ignores_finalized (.mk none none true true []) "x").2 rfl).1⟩

/-- C3 (code bug): saving through a handler that owns a filter raises
`TypeError` — `FilterBase.call`/`async_call` declare the two positional
parameters `(fileio, filename)` while `save_file`/`async_save_file` pass a
single `FileItem`, so the pipeline can never run; the repository's own test
`test_calls_filter` expects the filtered name `"file.txt-1-2"` instead. -/
theorem save_file_filter_arity_type_error :
    save_file
        ⟨false, [], [⟨true, fun i => .ok { i with filename := i.filename ++ "-1" }, .ok ()⟩],
         .ok (), fun i => .ok (some i.filename)⟩ "file.txt" none
      = .error (.typeError "call() missing 1 required positional argument: filename")
    ∧ async_save_file
        ⟨true, [], [⟨true, fun i => .ok { i with filename := i.filename ++ "-1" }, .ok ()⟩],
         .ok (), fun i => .ok (some i.filename)⟩ "file.txt" none
      = .error (.typeError "async_call() missing 1 required positional argument: filename") :=
  ⟨rfl, rfl⟩

/-- C4 counterexample: a backend whose save returns no filename (the spec's
"optional new filename" contract); the synchronous `save_file` then returns
that `None` unchanged instead of the post-transform filename
`"file.txt"`. -/
theorem save_file_backend_none_counterexample :
    save_file ⟨false, [], [], .ok (), fun _ => .ok none⟩ "file.txt" none = .ok none
    ∧ ¬ save_file ⟨false, [], [], .ok (), fun _ => .ok none⟩ "file.txt" none
        = .ok (some "file.txt") := by
  refine ⟨rfl, fun hc => ?_⟩
  exact Option.noConfusion (Except.ok.inj hc)

/-- C4 (amended): for a handler with no filters, `save_file` returns exactly
what the backend's save returns — including `None` — while
`async_save_file` returns the backend's name when one is returned and falls
back to the post-transform filename of the saved record only in the async
path. -/
theorem save_file_return_value_amended (h : StorageHandler) (fn : String)
    (d : Option (List Nat)) (hf : h.filters = []) :
    (save_file h fn d = h.save' (get_item h (sanitizeStr fn) d))
    ∧ (∀ n, h.save' (get_item h (sanitizeStr fn) d) = .ok (some n) →
        async_save_file h fn d = .ok n)
    ∧ (h.save' (get_item h (sanitizeStr fn) d) = .ok none →
        async_save_file h fn d = .ok (get_item h (sanitizeStr fn) d).filename) := by
  refine ⟨?_, ?_, ?_⟩
  · simp [save_file, hf, saveFileLoop]
  · intro n hn
    simp [async_save_file, hf, asyncSaveFileLoop, hn]
  · intro hn
    simp only [get_item] at hn
    simp [async_save_file, hf, asyncSaveFileLoop, hn, get_item]

/-- C4 witness: the amended theorem applied to a filterless handler whose
backend echoes the item's filename. -/
theorem save_file_return_value_amended_witness :
    save_file ⟨false, [], [], .ok (), fun i => .ok (some i.filename)⟩ "file.txt" none
      = (⟨false, [], [], .ok (), fun i => .ok (some i.filename)⟩ : StorageHandler).save'
          (get_item ⟨false, [], [], .ok (), fun i => .ok (some i.filename)⟩
            (sanitizeStr "file.txt") none)
    ∧ async_save_file ⟨false, [], [], .ok (), fun i => .ok (some i.filename)⟩
        "file.txt" none = .ok "file.txt" :=
  ⟨(save_file_return_value_amended _ "file.txt" none rfl).1,
   (save_file_return_value_amended _ "file.txt" none rfl).2.1 "file.txt" rfl⟩

/-- C5 (code bug): `DummyHandler.delete` of an absent file raises `KeyError`
(`del self.files[...]` on a missing key), so deletion is not idempotent for
every provided handler, contradicting the claim and the method's own
docstring; `LocalFileHandler._delete` by contrast swallows
`FileNotFoundError` and leaves the stored files unchanged. -/
theorem dummy_delete_absent_raises :
    DummyHandler.delete [] [] "file.txt" = .error PyErr.keyError
    ∧ LocalFileHandler.delete ["other.txt"] "file.txt" = .ok ["other.txt"] :=
  ⟨rfl, rfl⟩

/-- C6 (code bug): resolving the handler leaf `"None"` makes `setup_store`
assign Python `None` to `store.handler`, and the setter's `isinstance` check
rejects it with a `FilestorageConfigError` — the node is never put into the
do-not-use state, contradicting the claim and the repository's own test
`test_setup_nested_handlers`. -/
theorem setup_store_none_raises (resolved : StorageHandler) :
    setup_store_handler (.mk none none false false []) "None" resolved
      = .error (.configError "Setting handler: None is not a StorageHandler") := rfl

/-- C7: for every async handler owning at least one filter whose `async_ok`
flag is false, `AsyncStorageHandlerBase.validate` raises the
capability-mismatch `FilestorageConfigError` — whatever the outcome of the
remaining (filter and backend) validation would have been, so the mismatch
is caught at validation time, not at save time. -/
theorem async_validate_capability_mismatch (filters : List FilterBase)
    (subValidate : Except PyErr Unit)
    (h : ∃ f ∈ filters, f.async_ok = false) :
    AsyncStorageHandlerBase.validate filters subValidate
      = .error (.configError asyncMismatchMsg) := by
  unfold AsyncStorageHandlerBase.validate
  rw [asyncCapabilityCheck_error h]
  rfl

/-- C7 witness: a single blocking-only filter under an async handler. -/
theorem async_validate_capability_mismatch_witness :
    AsyncStorageHandlerBase.validate [⟨false, fun i => .ok i, .ok ()⟩] (.ok ())
      = .error (.configError asyncMismatchMsg) :=
  async_validate_capability_mismatch [⟨false, fun i => .ok i, .ok ()⟩] (.ok ())
    ⟨⟨false, fun i => .ok i, .ok ()⟩, List.mem_singleton.mpr rfl, rfl⟩

/-- C8: resolving the flat entry `"foo.bar[2].baz" = "v"` under the prefix
`"foo"` produces the nested structure whose `bar → "[2]" → baz` leaf holds
`"v"`: every `'['` starts a new path component and dotted segments become
nested keys. -/
theorem get_keys_from_bracket_example :
    get_keys_from "foo" [("foo.bar[2].baz", "v")]
      = SettingsDict.mk none
          [("bar", .mk none [("[2]", .mk none [("baz", .mk (some "v") [])])])]
    ∧ (lookupPath (get_keys_from "foo" [("foo.bar[2].baz", "v")])
        ["bar", "[2]", "baz"]).map SettingsDict.leaf = some (some "v") :=
  ⟨rfl, rfl⟩

/-- C9: `finalize_config` marks the container finalized before any
validation, so whenever it raises the returned state is finalized and a
second `finalize_config` call returns immediately with no error — finalize
is not atomic on error. -/
theorem finalize_config_error_leaves_finalized (c c' : StorageContainer) (e : PyErr)
    (h : finalize_config c = (c', some e)) :
    c'.finalized = true ∧ finalize_config c' = (c', none) := by
  obtain ⟨nm, hd, dnu, fin, ch⟩ := c
  cases fin with
  | true =>
      rw [show finalize_config (.mk nm hd dnu true ch) = (.mk nm hd dnu true ch, none)
        from by simp [finalize_config]] at h
      exact absurd (congrArg Prod.snd h) (by simp)
  | false =>
      cases dnu with
      | true =>
          rw [show finalize_config (.mk nm hd true false ch) = (.mk nm hd true true ch, none)
            from by simp [finalize_config]] at h
          exact absurd (congrArg Prod.snd h) (by simp)
      | false =>
          cases hd with
          | none =>
              rw [show finalize_config (.mk nm none false false ch)
                  = (.mk nm none false true ch,
                     some (.configError "No handler provided for store"))
                from by simp [finalize_config]] at h
              have h1 := congrArg Prod.fst h
              simp only at h1
              rw [← h1]
              exact ⟨rfl, by simp [finalize_config]⟩
          | some hh =>
              cases hv : StorageHandler.validate hh with
              | error e1 =>
                  rw [show finalize_config (.mk nm (some hh) false false ch)
                      = (.mk nm (some hh) false true ch, some e1)
                    from by simp [finalize_config, hv]] at h
                  have h1 := congrArg Prod.fst h
                  simp only at h1
                  rw [← h1]
                  exact ⟨rfl, by simp [finalize_config]⟩
              | ok u =>
                  cases u
                  cases hch : finalizeChildren ch with
                  | mk ch' e' =>
                      rw [show finalize_config (.mk nm (some hh) false false ch)
                          = (.mk nm (some hh) false true ch', e')
                        from by simp [finalize_config, hv, hch]] at h
                      have h1 := congrArg Prod.fst h
                      simp only at h1
                      rw [← h1]
                      exact ⟨rfl, by simp [finalize_config]⟩

/-- C9 witness: finalizing an unconfigured container raises and leaves it
finalized; the second call returns immediately. -/
theorem finalize_config_error_leaves_finalized_witness :
    (StorageContainer.mk none none false true []).finalized = true
    ∧ finalize_config (.mk none none false true [])
        = (.mk none none false true [], none) :=
  finalize_config_error_leaves_finalized (.mk none none false false [])
    (.mk none none false true []) (.configError "No handler provided for store")
    (by simp [finalize_config])

end Filestorage

